import Mathlib

/-!
Verification of the RankOnAI frontend workflow layer.

This file gives a shallow embedding, over `List Char` strings, of:

* `normalizeUrl` from `src/frontend/src/app/api/workflow/route.ts` (lines 13-57),
  together with a model of the WHATWG `new URL` constructor as used there;
* the `GET` and `POST` handlers of the same route (lines 89-158 and 165-236),
  with the backend reached through `fetch` modelled as an oracle function;
* the polling loop of `src/frontend/src/app/page.tsx` (`POLLING_INTERVAL`,
  `startWorkflow`, `pollStatus`);
* the `BOT_INFO` registry of `src/frontend/src/components/ai-bot-status.tsx`;
* the `ScoreGauge` clamp of `src/unnamed/part_009` over IEEE-style JS numbers
  (rationals extended with NaN and the two infinities).

Model scope for `new URL` (a platform builtin, not repository code): the model
covers scheme recognition, the special-scheme authority split (extra slashes
skipped, userinfo dropped, host lowercased and validated against forbidden host
code points, default ports elided, the port getter rendered as a string), path
and query splitting with fragment removal, backslash-to-slash conversion in
special paths, percent-encoding of the path/query encode sets, and the
tab/newline/control-edge preprocessing of the URL parser.  It does not model
IDNA or percent-decoding in hosts, IPv6 host brackets, dot-segment
normalization, or non-ASCII input (any code point at or above U+0080 makes the
model parse fail); every concrete input considered below is ASCII and free of
those features, and on such inputs the model agrees with the builtin.
-/

namespace RankOnAI

/-- JS strings are modelled as lists of characters. -/
abbrev Str := List Char

/-- Shorthand turning a Lean string literal into the `Str` model. -/
def str (s : String) : Str := s.toList

/-- ASCII lower-casing of one character, as `String.prototype.toLowerCase`
acts on the ASCII range (the only range the model admits). -/
def lowerChar (c : Char) : Char :=
  if 65 ≤ c.toNat ∧ c.toNat ≤ 90 then Char.ofNat (c.toNat + 32) else c

/-- ASCII lower-casing of a string. -/
def lowerStr (s : Str) : Str := s.map lowerChar

/-- Whitespace removed by `String.prototype.trim` (ASCII part). -/
def isJsSpace (c : Char) : Bool :=
  c == ' ' || c == '\t' || c == '\n' || c == '\r' || c == '\x0B' || c == '\x0C'

/-- Drop trailing characters satisfying `p`. -/
def dropTrailing (p : Char → Bool) (s : Str) : Str :=
  (s.reverse.dropWhile p).reverse

/-- `String.prototype.trim`. -/
def trimJs (s : Str) : Str := dropTrailing isJsSpace (s.dropWhile isJsSpace)

/-- `a.startsWith b` for the list model (`begins p s` means `p` begins `s`). -/
def begins : Str → Str → Bool
  | [], _ => true
  | _ :: _, [] => false
  | p :: ps, c :: cs => p == c && begins ps cs

/-- `s.endsWith c` for a single-character suffix. -/
def endsIn (c : Char) (s : Str) : Bool :=
  match s.getLast? with
  | some d => d == c
  | none => false

/-! ### Model of the WHATWG URL parser (`new URL`) for the inputs of this route -/

/-- Characters allowed after the first one in a URL scheme. -/
def isSchemeChar (c : Char) : Bool :=
  c.isAlpha || c.isDigit || c == '+' || c == '-' || c == '.'

/-- `/` and `\` are both slashes for special (http, https) URLs. -/
def isSlash (c : Char) : Bool := c == '/' || c == '\\'

/-- Characters terminating the authority component of a special URL. -/
def isAuthorityEnd (c : Char) : Bool := isSlash c || c == '?' || c == '#'

/-- Forbidden host (domain) code points: controls, space, delete and the
punctuation the URL standard forbids in domains. -/
def isForbiddenHost (c : Char) : Bool :=
  c.toNat ≤ 32 || 127 ≤ c.toNat ||
  ['#', '%', '/', ':', '?', '@', '[', '\\', ']', '^', '|', '<', '>',
    Char.ofNat 34].contains c

/-- The query percent-encode set of special URLs: C0 controls, space, delete,
double quote, hash, angle brackets and the apostrophe. -/
def isQueryEnc (c : Char) : Bool :=
  c.toNat ≤ 32 || c.toNat == 127 || c == Char.ofNat 34 || c == '#' ||
  c == '<' || c == '>' || c == Char.ofNat 39

/-- The path percent-encode set: the query set plus `?`, backtick and braces. -/
def isPathEnc (c : Char) : Bool :=
  isQueryEnc c || c == '?' || c == Char.ofNat 96 || c == Char.ofNat 123 ||
  c == Char.ofNat 125

/-- Upper-case hexadecimal digit, as the URL serializer emits it. -/
def hexDigitCh (n : Nat) : Char := (str "0123456789ABCDEF").getD n '0'

/-- Percent-encoding of one ASCII character. -/
def pctHex (c : Char) : Str :=
  ['%', hexDigitCh (c.toNat / 16), hexDigitCh (c.toNat % 16)]

/-- Percent-encode every character of `s` satisfying `p`. -/
def encodeWith (p : Char → Bool) : Str → Str
  | [] => []
  | c :: cs => (if p c then pctHex c else [c]) ++ encodeWith p cs

/-- Decimal digit character. -/
def digitCh (n : Nat) : Char := (str "0123456789").getD n '0'

/-- Decimal rendering of a natural number (used for the canonical port). -/
def natChars (n : Nat) : Str :=
  if n = 0 then ['0'] else ((Nat.digits 10 n).map digitCh).reverse

/-- Decimal reading of a digit string. -/
def parseNat (s : Str) : Nat :=
  s.foldl (fun a c => 10 * a + (c.toNat - 48)) 0

/-- Default port of a special scheme (`80` for http, `443` for https). -/
def defaultPort (schl : Str) : Nat := if schl == str "http" then 80 else 443

/-- Port parsing: the characters after the first `:` of the host-port string
must be digits; an empty port and the scheme default both render as the empty
string, matching the `URL.port` getter.  Ports above 65535 fail the parse. -/
def parsePort (schl : Str) (colonRest : Str) : Option Str :=
  match colonRest with
  | [] => some []
  | _ :: ds =>
    if ds.isEmpty then some []
    else if ds.all Char.isDigit then
      if 65535 < parseNat ds then none
      else if parseNat ds == defaultPort schl then some []
      else some (natChars (parseNat ds))
    else none

/-- Drop the userinfo part (everything up to the last `@`) of an authority. -/
def dropUserinfo (auth : Str) : Str :=
  if auth.any (· == '@') then (auth.reverse.takeWhile (fun c => !(c == '@'))).reverse
  else auth

/-- Authority of a special URL: after skipping extra slashes, everything up to
the first slash, backslash, `?` or `#`. -/
def authOf (rest : Str) : Str :=
  (rest.dropWhile isSlash).takeWhile (fun c => !isAuthorityEnd c)

/-- What follows the authority. -/
def afterAuth (rest : Str) : Str :=
  (rest.dropWhile isSlash).dropWhile (fun c => !isAuthorityEnd c)

/-- Host: the part of the authority before the first `:`, userinfo dropped. -/
def hostOf (rest : Str) : Str :=
  (dropUserinfo (authOf rest)).takeWhile (fun c => !(c == ':'))

/-- The `:`-and-port tail of the authority. -/
def portRaw (rest : Str) : Str :=
  (dropUserinfo (authOf rest)).dropWhile (fun c => !(c == ':'))

/-- Everything before the fragment delimiter. -/
def beforeFrag (t : Str) : Str := t.takeWhile (fun c => !(c == '#'))

/-- The raw path: before the fragment and before the query. -/
def rawPathOf (t : Str) : Str := (beforeFrag t).takeWhile (fun c => !(c == '?'))

/-- `URL.pathname` for special URLs: `/` when the path is empty, otherwise the
raw path with backslashes turned into slashes and the path set encoded. -/
def pathnameOf (t : Str) : Str :=
  if (rawPathOf t).isEmpty then ['/']
  else encodeWith isPathEnc ((rawPathOf t).map fun c => if c == '\\' then '/' else c)

/-- `URL.search`: empty when there is no query or the query is empty, otherwise
`?` followed by the encoded query. -/
def searchOf (t : Str) : Str :=
  match (beforeFrag t).dropWhile (fun c => !(c == '?')) with
  | [] => []
  | _ :: q => if q.isEmpty then [] else '?' :: encodeWith isQueryEnc q

/-- The components of a parsed URL that the route reads:  `protocol` keeps its
trailing colon exactly as the `URL.protocol` getter does. -/
structure UrlRec where
  protocol : Str
  host : Str
  port : Str
  pathname : Str
  search : Str
deriving DecidableEq, Repr

/-- Parsing of `scheme:rest` for the special schemes http and https. -/
def specialParse (schl rest : Str) : Option UrlRec :=
  if (hostOf rest).isEmpty then none
  else if (hostOf rest).any isForbiddenHost then none
  else
    match parsePort schl (portRaw rest) with
    | none => none
    | some port =>
      some ⟨schl ++ [':'], lowerStr (hostOf rest), port,
            pathnameOf (afterAuth rest), searchOf (afterAuth rest)⟩

/-- The URL parser's input preprocessing: strip control-or-space characters
from both ends, then remove every tab, line feed and carriage return. -/
def preprocessUrl (s : Str) : Str :=
  (dropTrailing (fun c => c.toNat ≤ 32) (s.dropWhile fun c => c.toNat ≤ 32)).filter
    fun c => !(c == '\t' || c == '\n' || c == '\r')

/-- The lower-cased scheme of the preprocessed input. -/
def schemeOf (s : Str) : Str := lowerStr ((preprocessUrl s).takeWhile isSchemeChar)

/-- Whether a string is nonempty and starts with an ASCII letter, the
requirement on the first character of a scheme. -/
def headIsAlpha : Str → Bool
  | [] => false
  | c :: _ => c.isAlpha

/-- What follows the `:` that terminates the scheme. -/
def restOf (s : Str) : Str := ((preprocessUrl s).dropWhile isSchemeChar).tail

/-- Model of `new URL(s)`: preprocessing, ASCII-only restriction, scheme
recognition (a letter, scheme characters, then a colon), then the
special-scheme parser for http and https and an opaque record for other
schemes (whose components the route never reads). -/
def parseUrl (s : Str) : Option UrlRec :=
  if (preprocessUrl s).any (fun c => 128 ≤ c.toNat) then none
  else if !headIsAlpha (preprocessUrl s) then none
  else if !begins [':'] ((preprocessUrl s).dropWhile isSchemeChar) then none
  else if schemeOf s == str "http" || schemeOf s == str "https" then
    specialParse (schemeOf s) (restOf s)
  else some ⟨schemeOf s ++ [':'], [], [], rawPathOf (restOf s), searchOf (restOf s)⟩

/-! ### `normalizeUrl` (route.ts lines 13-57) -/

/-- Lines 19-21 of route.ts: prepend `https://` unless the string already
starts with the exact lower-case `http://` or `https://`. -/
def addScheme (s : Str) : Str :=
  if begins (str "http://") s || begins (str "https://") s then s
  else str "https://" ++ s

/-- The `www.`-stripping of route.ts lines 28-30. -/
def wwwStrip (h : Str) : Str := if begins (str "www.") h then h.drop 4 else h

/-- The default-port elision of route.ts lines 33-37 applied to a parsed URL. -/
def zapDefaultPort (u : UrlRec) : Str :=
  if (u.protocol == str "http:" && u.port == str "80") ||
     (u.protocol == str "https:" && u.port == str "443") then []
  else u.port

/-- The host-and-port segment `normalizeUrl` emits between `//` and the path:
the re-lower-cased host with one leading `www.` removed, then `:port` when the
(already default-elided) port survives the route's own default-port check
(route.ts lines 26-37 and 48-49). -/
def hostPortPart (u : UrlRec) : Str :=
  wwwStrip (lowerStr u.host) ++
  (if (zapDefaultPort u).isEmpty then [] else ':' :: zapDefaultPort u)

/-- The trailing-slash transform of route.ts lines 40-45, as written there:
drop the final `/` when the path ends in one and is not exactly `/`;
a path that is exactly `/` becomes empty. -/
def codeSlash (path : Str) : Str :=
  if !(path == str "/") && endsIn '/' path then path.dropLast
  else if path == str "/" then [] else path

/-- Line 51 of route.ts: the query is appended only when truthy. -/
def searchAppendix (q : Str) : Str := if q.isEmpty then [] else q

/-- `normalizeUrl` of route.ts lines 13-57: empty strings are returned as
given; the input is trimmed (line 16) and given a scheme (`addScheme`, lines
19-21); a parse failure returns the partially normalized string (lines 54-56);
otherwise the URL is rebuilt (lines 26-53) as protocol, `//`, the lower-cased
host with one `www.` stripped and the non-default port (`hostPortPart`), the
trailing-slash-stripped path (`codeSlash`) and the query if any
(`searchAppendix`) — the fragment is never emitted. -/
def normalizeUrl (url : Str) : Str :=
  if url.isEmpty then url
  else
    match parseUrl (addScheme (trimJs url)) with
    | none => addScheme (trimJs url)
    | some parsed =>
      parsed.protocol ++ str "//" ++ hostPortPart parsed ++
        codeSlash parsed.pathname ++ searchAppendix parsed.search

/-- The trailing-slash rule in the words of the specification (§4.1 rule 4):
strip a single trailing `/` from the path unless the path is `/`, in which
case the path becomes empty. -/
def specSlash (p : Str) : Str :=
  if p = str "/" then [] else if endsIn '/' p then p.dropLast else p

/-- URL validation of the POST handler (route.ts lines 122-126):
`new URL(url.startsWith("http") ? url : "https://" + url)` succeeds. -/
def postValidUrl (u : Str) : Bool :=
  (parseUrl (if begins (str "http") u then u else str "https://" ++ u)).isSome

/-! ### The route handlers, with the backend as an oracle -/

/-- The backend endpoints the route can address. -/
inductive Endpoint where
  | byUrl (url : Str)
  | status (jobId : Str)
  | result (jobId : Str)
deriving DecidableEq

/-- A backend `fetch` outcome: HTTP status, the `detail` field of the error
body when present, and the parsed JSON body for pass-through. -/
structure BackendResponse (α : Type) where
  status : Nat
  detail : Option Str
  payload : Option α
deriving DecidableEq

/-- `Response.ok`: status in the range 200-299. -/
def respOk {α : Type} (r : BackendResponse α) : Bool :=
  decide (200 ≤ r.status ∧ r.status < 300)

/-- The JSON response the Next.js route produces: HTTP status, `error`,
`notFound` and `status`/`message` fields when synthesized, and the backend
body when passed through. -/
structure ApiResponse (α : Type) where
  status : Nat
  error : Option Str
  notFound : Bool
  statusField : Option Str
  message : Option Str
  payload : Option α
deriving DecidableEq

/-- JS truthiness of a possibly-absent string: absent and empty are falsy. -/
def jsTruthy : Option Str → Bool
  | none => false
  | some s => !s.isEmpty

/-- The GET handler of route.ts lines 165-236.  `jobId` and `url` are the
query parameters (absent or a string), `getResult` is `result === "true"`,
and `backend` gives the backend response for each endpoint. -/
def handleGet {α : Type} (jobId url : Option Str) (getResult : Bool)
    (backend : Endpoint → BackendResponse α) : ApiResponse α :=
  if jsTruthy url && !jsTruthy jobId then
    let normalizedUrl := normalizeUrl (url.getD [])
    let r := backend (.byUrl normalizedUrl)
    if !respOk r then
      if r.status == 404 then
        ⟨404, some (str "No cached result for this URL"), true, none, none, none⟩
      else
        ⟨r.status, some (r.detail.getD (str "Failed to get workflow result")),
          false, none, none, none⟩
    else ⟨200, none, false, none, none, r.payload⟩
  else if !jsTruthy jobId then
    ⟨400, some (str "jobId or url is required"), false, none, none, none⟩
  else
    let jid := jobId.getD []
    let r := backend (if getResult then .result jid else .status jid)
    if !respOk r then
      if r.status == 202 then
        ⟨202, none, false, some (str "running"),
          some (r.detail.getD (str "Still processing")), none⟩
      else
        ⟨r.status, some (r.detail.getD (str "Failed to get workflow status")),
          false, none, none, none⟩
    else ⟨200, none, false, none, none, r.payload⟩

/-- The parsed JSON body of a POST request. -/
structure PostBody where
  url : Option Str
  brand : Option Str
  captchaToken : Option Str

/-- The body forwarded to `POST {backend}/workflow/start`. -/
structure ForwardBody where
  url : Str
  brand : Option Str
deriving DecidableEq

/-- Forwarding to the backend and mapping its response (route.ts 134-150). -/
def postForward {α : Type} (fb : ForwardBody)
    (backend : ForwardBody → BackendResponse α) : ApiResponse α × Option ForwardBody :=
  let r := backend fb
  if !respOk r then
    (⟨r.status, some (r.detail.getD (str "Failed to start workflow")),
       false, none, none, none⟩, some fb)
  else (⟨200, none, false, none, none, r.payload⟩, some fb)

/-- The POST handler of route.ts lines 89-158.  `secret` is the Turnstile
secret key from the environment, `cv` the CAPTCHA verification oracle, and
`backend` the backend.  The second component records the body forwarded to
the backend (`none` when the request never reached it). -/
def handlePost {α : Type} (body : PostBody) (secret : Option Str)
    (cv : Str → Bool) (backend : ForwardBody → BackendResponse α) :
    ApiResponse α × Option ForwardBody :=
  if !jsTruthy body.url && !jsTruthy body.brand then
    (⟨400, some (str "URL or brand is required"), false, none, none, none⟩, none)
  else if jsTruthy secret && !jsTruthy body.captchaToken then
    (⟨400, some (str "CAPTCHA verification required"), false, none, none, none⟩, none)
  else if jsTruthy secret && !cv (body.captchaToken.getD []) then
    (⟨403, some (str "CAPTCHA verification failed. Please try again."),
       false, none, none, none⟩, none)
  else if jsTruthy body.url then
    if postValidUrl (body.url.getD []) then
      postForward ⟨body.url.getD [], none⟩ backend
    else (⟨400, some (str "Invalid URL format"), false, none, none, none⟩, none)
  else
    postForward ⟨str "brand:" ++ body.brand.getD [], some (body.brand.getD [])⟩ backend

/-! ### The polling loop (page.tsx) -/

/-- `POLLING_INTERVAL` of page.tsx line 30. -/
def POLLING_INTERVAL : Nat := 2000

/-- The statuses at which `pollStatus` clears the polling interval
(page.tsx lines 177-199). -/
def isTerminalStatus (s : Str) : Bool := s == str "completed" || s == str "failed"

/-- The polling schedule of `startWorkflow` (page.tsx lines 272-278): an
immediate poll, then `setInterval(..., POLLING_INTERVAL)` until `pollStatus`
sees a terminal status.  `statusAt k` is the status the `k`-th poll observes;
`pollTick f n` is the time of the `n`-th poll, `none` once polling stopped. -/
def pollTick (statusAt : Nat → Str) (n : Nat) : Option Nat :=
  if (List.range n).all (fun k => !isTerminalStatus (statusAt k)) then
    some (n * POLLING_INTERVAL)
  else none

/-! ### The AI-bot registry (ai-bot-status.tsx lines 6-26) -/

/-- How important a crawler is, as displayed. -/
inductive Importance where
  | high
  | medium
  | low
deriving DecidableEq

/-- Display metadata of one known AI crawler. -/
structure BotMeta where
  name : String
  platform : String
  importance : Importance
deriving DecidableEq

/-- `BOT_INFO` of ai-bot-status.tsx lines 6-26, in source order. -/
def BOT_INFO : List (String × BotMeta) :=
  [ ("GPTBot", ⟨"ChatGPT", "OpenAI", .high⟩),
    ("OAI-SearchBot", ⟨"ChatGPT Search", "OpenAI", .high⟩),
    ("ChatGPT-User", ⟨"ChatGPT Browsing", "OpenAI", .high⟩),
    ("ClaudeBot", ⟨"Claude", "Anthropic", .high⟩),
    ("Claude-Web", ⟨"Claude Web", "Anthropic", .high⟩),
    ("anthropic-ai", ⟨"Anthropic AI", "Anthropic", .medium⟩),
    ("Google-Extended", ⟨"Gemini", "Google", .high⟩),
    ("GoogleOther", ⟨"Google AI", "Google", .medium⟩),
    ("PerplexityBot", ⟨"Perplexity", "Perplexity", .high⟩),
    ("Bytespider", ⟨"ByteDance", "TikTok", .low⟩),
    ("CCBot", ⟨"Common Crawl", "AI Training", .medium⟩),
    ("Amazonbot", ⟨"Alexa/Amazon", "Amazon", .medium⟩),
    ("Applebot-Extended", ⟨"Siri/Apple AI", "Apple", .high⟩),
    ("cohere-ai", ⟨"Cohere", "Cohere", .medium⟩),
    ("Diffbot", ⟨"Diffbot", "Diffbot", .low⟩),
    ("FacebookBot", ⟨"Meta AI", "Meta", .medium⟩),
    ("Meta-ExternalAgent", ⟨"Meta Agent", "Meta", .medium⟩),
    ("omgili", ⟨"Webz.io", "Data", .low⟩),
    ("Timpibot", ⟨"Timpi", "Search", .low⟩) ]

/-! ### The score gauge (part_009, `ScoreGauge`) -/

/-- JS numbers, as far as the gauge needs them: finite values as rationals,
plus NaN and the two infinities. -/
inductive JsNum where
  | nan
  | inf
  | ninf
  | num (q : ℚ)
deriving DecidableEq

/-- A JS value flowing into the `score` prop: a number or anything else. -/
inductive JsVal where
  | number (x : JsNum)
  | nonNumber
deriving DecidableEq

/-- `Math.max` on two arguments: NaN propagates, otherwise the larger value. -/
def jsMax : JsNum → JsNum → JsNum
  | .nan, _ => .nan
  | _, .nan => .nan
  | .inf, _ => .inf
  | _, .inf => .inf
  | .ninf, b => b
  | a, .ninf => a
  | .num a, .num b => .num (max a b)

/-- `Math.min` on two arguments: NaN propagates, otherwise the smaller value. -/
def jsMin : JsNum → JsNum → JsNum
  | .nan, _ => .nan
  | _, .nan => .nan
  | .ninf, _ => .ninf
  | _, .ninf => .ninf
  | .inf, b => b
  | a, .inf => a
  | .num a, .num b => .num (min a b)

/-- `safeScore` of part_009 line 25:
`Math.min(100, Math.max(0, typeof score === "number" ? score : 0))`;
the gauge displays this value. -/
def safeScore (score : JsVal) : JsNum :=
  jsMin (.num 100) (jsMax (.num 0)
    (match score with | .number x => x | .nonNumber => .num 0))

/-- Whether a displayed gauge value lies in the range 0-100. -/
def inRangeB : JsNum → Bool
  | .num q => decide (0 ≤ q) && decide (q ≤ 100)
  | _ => false

/-! ### Helper lemmas -/

theorem charToNat_ofNat (n : Nat) (h : n < 55296) : (Char.ofNat n).toNat = n := by
  have hv : n.isValidChar := Or.inl h
  simp [Char.ofNat, hv, Char.ofNatAux, Char.toNat, UInt32.toNat]

theorem lowerChar_hash {c : Char} (h : lowerChar c = '#') : c = '#' := by
  unfold lowerChar at h
  split at h
  · next hc =>
    have h2 := charToNat_ofNat (c.toNat + 32) (by omega)
    rw [h] at h2
    have h3 : ('#' : Char).toNat = 35 := by decide
    omega
  · exact h

theorem hash_not_mem_lowerStr {l : Str} (h : '#' ∉ l) : '#' ∉ lowerStr l := by
  intro hm
  rcases List.mem_map.mp hm with ⟨c, hc, he⟩
  have hc' : c = '#' := lowerChar_hash he
  rw [hc'] at hc
  exact h hc

theorem getD_ne_hash : ∀ (l : Str) (n : Nat), '#' ∉ l → ∀ d : Char, d ≠ '#' →
    l.getD n d ≠ '#'
  | [], n, _, d, hd => by simpa [List.getD] using hd
  | c :: cs, 0, hl, d, _ => by
    simp only [List.getD_cons_zero]
    exact fun h => hl (h ▸ List.mem_cons_self c cs)
  | c :: cs, n + 1, hl, d, hd => by
    simp only [List.getD_cons_succ]
    exact getD_ne_hash cs n (fun hm => hl (List.mem_cons_of_mem c hm)) d hd

theorem hexDigitCh_ne_hash (n : Nat) : hexDigitCh n ≠ '#' :=
  getD_ne_hash _ n (by decide) '0' (by decide)

theorem digitCh_ne_hash (n : Nat) : digitCh n ≠ '#' :=
  getD_ne_hash _ n (by decide) '0' (by decide)

theorem hash_not_mem_pctHex (c : Char) : '#' ∉ pctHex c := by
  intro hm
  rcases List.mem_cons.mp hm with h | hm
  · exact absurd h (by decide)
  rcases List.mem_cons.mp hm with h | hm
  · exact hexDigitCh_ne_hash _ h.symm
  rcases List.mem_cons.mp hm with h | hm
  · exact hexDigitCh_ne_hash _ h.symm
  · simp at hm

theorem hash_not_mem_encodeWith {p : Char → Bool} (hp : p '#' = true) :
    ∀ l : Str, '#' ∉ encodeWith p l := by
  intro l
  induction l with
  | nil => simp [encodeWith]
  | cons c cs ih =>
    simp only [encodeWith, List.mem_append]
    rintro (hm | hm)
    · split at hm
      · exact hash_not_mem_pctHex c hm
      · next hc =>
        rcases List.mem_singleton.mp hm with rfl
        simp [hp] at hc
    · exact ih hm

theorem hash_not_mem_takeWhileNe (l : Str) :
    '#' ∉ l.takeWhile fun c => !(c == '#') := by
  intro hm
  have := List.mem_takeWhile_imp hm
  simp at this

theorem dropUserinfo_subset (a : Str) : dropUserinfo a ⊆ a := by
  unfold dropUserinfo
  split
  · intro x hx
    rw [List.mem_reverse] at hx
    exact List.mem_reverse.mp ((List.takeWhile_sublist _).subset hx)
  · exact fun x hx => hx

theorem hash_not_mem_hostOf (rest : Str) : '#' ∉ hostOf rest := by
  intro hm
  have h1 : '#' ∈ dropUserinfo (authOf rest) := (List.takeWhile_sublist _).subset hm
  have h2 : '#' ∈ authOf rest := dropUserinfo_subset _ h1
  have := List.mem_takeWhile_imp h2
  simp [isAuthorityEnd, isSlash] at this

theorem hash_not_mem_natChars (n : Nat) : '#' ∉ natChars n := by
  unfold natChars
  split
  · decide
  · intro hm
    rw [List.mem_reverse] at hm
    rcases List.mem_map.mp hm with ⟨d, _, he⟩
    exact digitCh_ne_hash d he

theorem parsePort_hash {schl pr port : Str} (h : parsePort schl pr = some port) :
    '#' ∉ port := by
  unfold parsePort at h
  split at h
  · cases h
    simp
  · split_ifs at h <;> (try cases h) <;> simp [hash_not_mem_natChars]

theorem hash_not_mem_beforeFrag (t : Str) : '#' ∉ beforeFrag t :=
  hash_not_mem_takeWhileNe t

theorem hash_not_mem_rawPathOf (t : Str) : '#' ∉ rawPathOf t := by
  intro hm
  exact hash_not_mem_beforeFrag t ((List.takeWhile_sublist _).subset hm)

theorem hash_not_mem_pathnameOf (t : Str) : '#' ∉ pathnameOf t := by
  unfold pathnameOf
  split
  · decide
  · exact hash_not_mem_encodeWith (by decide) _

theorem hash_not_mem_searchOf (t : Str) : '#' ∉ searchOf t := by
  unfold searchOf
  split
  · simp
  · split
    · simp
    · intro hm
      rcases List.mem_cons.mp hm with h | h
      · simp at h
      · exact hash_not_mem_encodeWith (by decide) _ h

theorem hash_not_mem_schemeOf (s : Str) : '#' ∉ schemeOf s := by
  unfold schemeOf
  apply hash_not_mem_lowerStr
  intro hm
  have := List.mem_takeWhile_imp hm
  simp [isSchemeChar] at this

theorem specialParse_hash {schl rest : Str} {u : UrlRec}
    (hp : '#' ∉ schl) (h : specialParse schl rest = some u) :
    '#' ∉ u.protocol ∧ '#' ∉ u.host ∧ '#' ∉ u.port ∧
      '#' ∉ u.pathname ∧ '#' ∉ u.search := by
  unfold specialParse at h
  split_ifs at h with h1 h2
  split at h
  · cases h
  · next port hport =>
    cases h
    refine ⟨?_, ?_, parsePort_hash hport, hash_not_mem_pathnameOf _,
      hash_not_mem_searchOf _⟩
    · simp only [List.mem_append]
      rintro (hm | hm)
      · exact hp hm
      · simp at hm
    · exact hash_not_mem_lowerStr (hash_not_mem_hostOf _)

theorem parseUrl_hash {s : Str} {u : UrlRec} (h : parseUrl s = some u) :
    '#' ∉ u.protocol ∧ '#' ∉ u.host ∧ '#' ∉ u.port ∧
      '#' ∉ u.pathname ∧ '#' ∉ u.search := by
  unfold parseUrl at h
  split_ifs at h
  all_goals
    first
    | exact Option.noConfusion h
    | exact specialParse_hash (hash_not_mem_schemeOf _) h
    | (rw [Option.some_inj] at h
       subst h
       refine ⟨?_, by simp, by simp, hash_not_mem_rawPathOf _,
         hash_not_mem_searchOf _⟩
       simp only [List.mem_append]
       rintro (hm | hm)
       · exact hash_not_mem_schemeOf _ hm
       · simp at hm)

theorem slashRule_eq (p : Str) : codeSlash p = specSlash p := by
  unfold codeSlash specSlash
  by_cases h : p = str "/"
  · simp [h]
  · by_cases h2 : endsIn '/' p = true
    · simp [beq_iff_eq, h, h2]
    · simp [beq_iff_eq, h, h2]

theorem searchAppendix_eq (q : Str) : searchAppendix q = q := by
  cases q <;> simp [searchAppendix, List.isEmpty]

theorem normalizeUrl_eq_of_parse (x : Str) (u : UrlRec)
    (h : parseUrl (addScheme (trimJs x)) = some u) :
    normalizeUrl x =
      u.protocol ++ str "//" ++ hostPortPart u ++ specSlash u.pathname ++ u.search := by
  cases x with
  | nil =>
    have hn : parseUrl (addScheme (trimJs ([] : Str))) = none := by decide
    rw [hn] at h
    exact Option.noConfusion h
  | cons c cs =>
    unfold normalizeUrl
    rw [h]
    show u.protocol ++ str "//" ++ hostPortPart u ++
        codeSlash u.pathname ++ searchAppendix u.search = _
    rw [slashRule_eq, searchAppendix_eq]

theorem hash_not_mem_wwwStrip {h : Str} (hh : '#' ∉ h) : '#' ∉ wwwStrip h := by
  unfold wwwStrip
  split
  · exact fun hm => hh (List.drop_subset _ _ hm)
  · exact hh

theorem hash_not_mem_zapDefaultPort {u : UrlRec} (hp : '#' ∉ u.port) :
    '#' ∉ zapDefaultPort u := by
  unfold zapDefaultPort
  split
  · simp
  · exact hp

theorem hash_not_mem_hostPortPart {u : UrlRec} (hh : '#' ∉ u.host)
    (hp : '#' ∉ u.port) : '#' ∉ hostPortPart u := by
  unfold hostPortPart
  intro hm
  rcases List.mem_append.mp hm with hm | hm
  · exact hash_not_mem_wwwStrip (hash_not_mem_lowerStr hh) hm
  · split at hm
    · simp at hm
    · rcases List.mem_cons.mp hm with h | h
      · exact absurd h (by decide)
      · exact hash_not_mem_zapDefaultPort hp h

theorem hash_not_mem_specSlash {p : Str} (hp : '#' ∉ p) : '#' ∉ specSlash p := by
  unfold specSlash
  split_ifs
  · simp
  · exact fun hm => hp (List.dropLast_subset p hm)
  · exact hp

/-! ### The claims -/

/-- Claim C1: the specification asserts
`normalize("HTTP://Example.com:80/a/") == normalize("example.com/a")`.
The code violates it: the scheme test of route.ts line 19 is case-sensitive,
so `https://` is prepended to the upper-case-scheme URL, `HTTP` becomes the
hostname, and the two normal forms differ. -/
theorem c1_normalize_pair_eval :
    normalizeUrl (str "HTTP://Example.com:80/a/") = str "https://http//Example.com:80/a" ∧
    normalizeUrl (str "example.com/a") = str "https://example.com/a" ∧
    ¬(normalizeUrl (str "HTTP://Example.com:80/a/") = normalizeUrl (str "example.com/a")) := by
  refine ⟨by decide, by decide, by decide⟩

/-- Claim C2: the specification requires `normalize` to be idempotent.  The
code violates it: on `https://example.com//` one application strips one slash
(path `//` becomes `/`), and a second application maps the now-bare `/` to the
empty path, so applying the normalizer twice differs from applying it once. -/
theorem c2_normalize_not_idempotent :
    normalizeUrl (str "https://example.com//") = str "https://example.com/" ∧
    normalizeUrl (str "https://example.com/") = str "https://example.com" ∧
    ¬(normalizeUrl (normalizeUrl (str "https://example.com//")) =
        normalizeUrl (str "https://example.com//")) := by
  refine ⟨by decide, by decide, by decide⟩

/-- Claim C3, counterexample: `a b.com` cannot be parsed as a URL (neither
raw nor after the code's scheme prepending), yet the normalizer does not
return it unchanged — it returns the trimmed, `https://`-prefixed string. -/
theorem c3_malformed_counterexample :
    parseUrl (str "a b.com") = none ∧
    parseUrl (addScheme (trimJs (str "a b.com"))) = none ∧
    normalizeUrl (str "a b.com") = str "https://a b.com" ∧
    ¬(normalizeUrl (str "a b.com") = str "a b.com") := by
  refine ⟨by decide, by decide, by decide, by decide⟩

/-- Claim C3, amended: on any nonempty input whose (scheme-prepended, trimmed)
form fails to parse, the normalizer returns that partially normalized string —
the trimmed input with `https://` prepended when it lacked an `http(s)://`
prefix — rather than the raw input. -/
theorem c3_malformed_returns_prefixed (x : Str) (hx : x ≠ [])
    (h : parseUrl (addScheme (trimJs x)) = none) :
    normalizeUrl x = addScheme (trimJs x) := by
  cases x with
  | nil => exact absurd rfl hx
  | cons c cs =>
    unfold normalizeUrl
    rw [h]
    rfl

theorem c3_witness :
    normalizeUrl (str "a b.com") = addScheme (trimJs (str "a b.com")) :=
  c3_malformed_returns_prefixed (str "a b.com") (by decide) (by decide)

/-- Claim C4: for every input the code parses as a URL, the normalizer's
output contains no fragment (no `#` at all), keeps the query string as a
suffix, and applies the specification's trailing-slash rule to the path
(one trailing `/` stripped, a bare `/` becoming empty). -/
theorem c4_normalized_shape (x : Str) (u : UrlRec)
    (h : parseUrl (addScheme (trimJs x)) = some u) :
    '#' ∉ normalizeUrl x ∧
      ∃ hostPart, normalizeUrl x =
        u.protocol ++ str "//" ++ hostPart ++ specSlash u.pathname ++ u.search := by
  obtain ⟨hprot, hhost, hport, hpath, hsearch⟩ := parseUrl_hash h
  have hn := normalizeUrl_eq_of_parse x u h
  refine ⟨?_, ⟨hostPortPart u, hn⟩⟩
  rw [hn]
  intro hm
  rcases List.mem_append.mp hm with hm | hm
  · rcases List.mem_append.mp hm with hm | hm
    · rcases List.mem_append.mp hm with hm | hm
      · rcases List.mem_append.mp hm with hm | hm
        · exact hprot hm
        · exact absurd hm (by decide)
      · exact hash_not_mem_hostPortPart hhost hport hm
    · exact hash_not_mem_specSlash hpath hm
  · exact hsearch hm

theorem c4_witness :
    '#' ∉ normalizeUrl (str "https://example.com/docs/?q=1#top") ∧
      ∃ hostPart, normalizeUrl (str "https://example.com/docs/?q=1#top") =
        str "https:" ++ str "//" ++ hostPart ++ specSlash (str "/docs/") ++ str "?q=1" :=
  c4_normalized_shape (str "https://example.com/docs/?q=1#top")
    ⟨str "https:", str "example.com", [], str "/docs/", str "?q=1"⟩ (by decide)

/-- Claim C5, counterexample: a GET request carrying the url parameter with
the empty value and no jobId is answered HTTP 400 (`jobId or url is
required`) without any backend lookup — even against a backend with no cache
entry anywhere — instead of the claimed 404 with notFound. -/
theorem c5_empty_url_counterexample :
    handleGet none (some []) false
        (fun _ => (⟨404, none, none⟩ : BackendResponse Nat)) =
      ⟨400, some (str "jobId or url is required"), false, none, none, none⟩ ∧
    ¬((handleGet none (some []) false
        (fun _ => (⟨404, none, none⟩ : BackendResponse Nat))).status = 404) :=
  ⟨rfl, by decide⟩

/-- Claim C5, amended: for every GET request carrying a nonempty url
parameter and no jobId, the handler looks the report up at the by-url
endpoint keyed by the normalized url, and when that lookup answers 404 it
responds HTTP 404 with notFound set and no payload. -/
theorem c5_by_url_miss {α : Type} (u : Str) (hu : u ≠ []) (g : Bool)
    (b : Endpoint → BackendResponse α)
    (h : (b (.byUrl (normalizeUrl u))).status = 404) :
    handleGet none (some u) g b =
      ⟨404, some (str "No cached result for this URL"), true, none, none, none⟩ := by
  have hie : u.isEmpty = false := by simp [hu]
  simp [handleGet, jsTruthy, hie, respOk, h]

theorem c5_witness :
    handleGet none (some (str "Example.com/")) false
        (fun _ => (⟨404, none, none⟩ : BackendResponse Nat)) =
      ⟨404, some (str "No cached result for this URL"), true, none, none, none⟩ :=
  c5_by_url_miss (str "Example.com/") (by decide) false _ rfl

/-- Claim C6, counterexample: with Turnstile configured, a POST whose url
cannot be parsed as a URL but whose CAPTCHA verification fails is rejected
with HTTP 403, not 400 — CAPTCHA checking precedes URL validation — though it
is indeed never forwarded. -/
theorem c6_captcha_preempts :
    postValidUrl (str "a b") = false ∧
    handlePost ⟨some (str "a b"), none, some (str "tok")⟩ (some (str "sek"))
        (fun _ => false) (fun _ => (⟨200, none, none⟩ : BackendResponse Nat)) =
      (⟨403, some (str "CAPTCHA verification failed. Please try again."),
         false, none, none, none⟩, none) ∧
    ¬((handlePost ⟨some (str "a b"), none, some (str "tok")⟩ (some (str "sek"))
        (fun _ => false)
        (fun _ => (⟨200, none, none⟩ : BackendResponse Nat))).1.status = 400) :=
  ⟨by decide, rfl, by decide⟩

/-- Claim C6, amended: a POST whose body has neither a truthy url nor a
truthy brand, or whose url fails the handler's URL validation, is never
forwarded to the backend and is rejected synchronously — with HTTP 400,
except that when Turnstile is configured a missing or failing CAPTCHA check
rejects first (HTTP 400 or 403) before URL validation runs. -/
theorem c6_invalid_rejected {α : Type} (body : PostBody) (secret : Option Str)
    (cv : Str → Bool) (backend : ForwardBody → BackendResponse α)
    (h : (jsTruthy body.url = false ∧ jsTruthy body.brand = false) ∨
         (jsTruthy body.url = true ∧ postValidUrl (body.url.getD []) = false)) :
    (handlePost body secret cv backend).2 = none ∧
    ((handlePost body secret cv backend).1.status = 400 ∨
     (handlePost body secret cv backend).1.status = 403) ∧
    ((jsTruthy secret = false ∨
        (jsTruthy body.captchaToken = true ∧
          cv (body.captchaToken.getD []) = true)) →
      (handlePost body secret cv backend).1.status = 400) := by
  rcases h with ⟨h1, h2⟩ | ⟨h1, h2⟩
  · simp [handlePost, h1, h2]
  · cases s : jsTruthy secret <;>
    cases t : jsTruthy body.captchaToken <;>
    cases v : cv (body.captchaToken.getD []) <;>
    simp [handlePost, h1, h2, s, t, v]

theorem c6_witness :
    (handlePost ⟨some (str "a b"), none, none⟩ none (fun _ => true)
        (fun _ => (⟨200, none, none⟩ : BackendResponse Nat))).2 = none ∧
    ((handlePost ⟨some (str "a b"), none, none⟩ none (fun _ => true)
        (fun _ => (⟨200, none, none⟩ : BackendResponse Nat))).1.status = 400 ∨
     (handlePost ⟨some (str "a b"), none, none⟩ none (fun _ => true)
        (fun _ => (⟨200, none, none⟩ : BackendResponse Nat))).1.status = 403) ∧
    ((jsTruthy (none : Option Str) = false ∨
        (jsTruthy (⟨some (str "a b"), none, none⟩ : PostBody).captchaToken = true ∧
          (fun _ => true)
            ((⟨some (str "a b"), none, none⟩ : PostBody).captchaToken.getD []) = true)) →
      (handlePost ⟨some (str "a b"), none, none⟩ none (fun _ => true)
          (fun _ => (⟨200, none, none⟩ : BackendResponse Nat))).1.status = 400) :=
  c6_invalid_rejected ⟨some (str "a b"), none, none⟩ none (fun _ => true) _
    (Or.inr ⟨by decide, by decide⟩)

/-- Claim C7: the specification says a still-processing status or result
query is answered HTTP 202 with a body whose status field is `running`.
The handler cannot produce that response: a backend 202 satisfies
`response.ok`, so the 202 branch of route.ts lines 210-218 is unreachable,
and for every backend 202 response — any jobId, any detail, any body, both
the status and the result endpoint — the handler returns HTTP 200 with the
backend body passed through. -/
theorem c7_still_processing_passthrough {α : Type} (c : Char) (jid : Str)
    (g : Bool) (d : Option Str) (p : Option α) :
    handleGet (some (c :: jid)) none g (fun _ => ⟨202, d, p⟩) =
      ⟨200, none, false, none, none, p⟩ := rfl

/-- Claim C8: the reference client polls at the fixed interval
`POLLING_INTERVAL = 2000` milliseconds: the first poll is immediate, and as
long as no earlier poll observed a terminal status (`completed` or `failed`)
each following poll happens exactly 2000 ms after the previous one; once a
poll observes a terminal status, no further poll happens. -/
theorem c8_polling_schedule :
    POLLING_INTERVAL = 2000 ∧
    (∀ f : Nat → Str, pollTick f 0 = some 0) ∧
    (∀ (f : Nat → Str) (n : Nat),
      pollTick f (n + 1) =
        (pollTick f n).bind fun t =>
          if isTerminalStatus (f n) then none
          else some (t + POLLING_INTERVAL)) := by
  refine ⟨rfl, fun f => by simp [pollTick], fun f n => ?_⟩
  unfold pollTick
  rw [List.range_succ, List.all_append]
  cases h1 : (List.range n).all (fun k => !isTerminalStatus (f k)) <;>
  cases h2 : isTerminalStatus (f n) <;>
  simp [h1, h2, Nat.succ_mul]

/-- Claim C9: the static registry of known AI-crawler user agents has exactly
19 entries and includes the OpenAI GPTBot, the Anthropic ClaudeBot,
Google-Extended and PerplexityBot. -/
theorem c9_bot_registry :
    BOT_INFO.length = 19 ∧
    List.lookup "GPTBot" BOT_INFO = some ⟨"ChatGPT", "OpenAI", .high⟩ ∧
    List.lookup "ClaudeBot" BOT_INFO = some ⟨"Claude", "Anthropic", .high⟩ ∧
    List.lookup "Google-Extended" BOT_INFO = some ⟨"Gemini", "Google", .high⟩ ∧
    List.lookup "PerplexityBot" BOT_INFO = some ⟨"Perplexity", "Perplexity", .high⟩ := by
  refine ⟨rfl, ?_, ?_, ?_, ?_⟩ <;> rfl

/-- Claim C10, counterexample: a NaN score is of JS type number, and
`Math.min(100, Math.max(0, NaN))` is NaN, so the gauge displays NaN — a value
outside the range 0-100 — refuting the claim that every input renders inside
the range. -/
theorem c10_nan_escapes_clamp :
    safeScore (.number .nan) = .nan ∧
    inRangeB (safeScore (.number .nan)) = false :=
  ⟨rfl, rfl⟩

/-- Claim C10, amended: for every input other than NaN the gauge's displayed
value lies in the range 0-100 — every finite numeric score is clamped into
the range, Infinity clamps to 100, negative Infinity to 0, and a non-numeric
score renders as 0 — while a NaN score propagates to the display. -/
theorem c10_clamp_range :
    (∀ q : ℚ, inRangeB (safeScore (.number (.num q))) = true) ∧
    safeScore .nonNumber = .num 0 ∧
    inRangeB (safeScore .nonNumber) = true ∧
    safeScore (.number .inf) = .num 100 ∧
    safeScore (.number .ninf) = .num 0 := by
  refine ⟨fun q => ?_, by decide, by decide, by decide, by decide⟩
  have hs : safeScore (.number (.num q)) = .num (min 100 (max 0 q)) := rfl
  rw [hs]
  show (decide ((0 : ℚ) ≤ min 100 (max 0 q)) &&
        decide (min 100 (max 0 q) ≤ (100 : ℚ))) = true
  rw [Bool.and_eq_true, decide_eq_true_eq, decide_eq_true_eq]
  exact ⟨le_min (by norm_num) (le_max_left 0 q), min_le_left _ _⟩

end RankOnAI
